import Mathlib

/-!
Shallow embedding of the StayUpToDo-Laundry backend core:
the machine domain model (`src/backend/src/models/machine.py`,
`status_history.py`, `telegram_message.py`), the in-memory registry
(`src/backend/src/storage.py`) and the remaining-time PATCH handler
(`src/backend/src/resources/machine.py`).

Python timestamps (`datetime`) are modelled by a type parameter `Dt`:
the code never inspects a timestamp, it only stores it, serializes it
with `datetime.isoformat` and parses it back with
`datetime.fromisoformat`, which are passed in as functions where needed.
Python `int` is modelled by `Int`; Python exceptions by `Except String`.
-/

/-- Embeds `MachineStatus` from `src/backend/src/types/enums.py`. -/
inductive MachineStatus where
  | available
  | paidFor
  | inUse
  | pendingUnload
  | outOfOrder
deriving DecidableEq, Repr

/-- The `.value` string tag of each status (`enums.py`). -/
def MachineStatus.value : MachineStatus → String
  | .available => "available"
  | .paidFor => "paidFor"
  | .inUse => "inUse"
  | .pendingUnload => "pendingUnload"
  | .outOfOrder => "outOfOrder"

/-- Embeds the enum constructor `MachineStatus(str)`: returns the member whose
`.value` equals the string, `none` when Python would raise `ValueError`. -/
def MachineStatus.fromValue : String → Option MachineStatus
  | "available" => some .available
  | "paidFor" => some .paidFor
  | "inUse" => some .inUse
  | "pendingUnload" => some .pendingUnload
  | "outOfOrder" => some .outOfOrder
  | _ => none

/-- Embeds `MachineType` from `src/backend/src/types/enums.py`. -/
inductive MachineType where
  | washer
  | dryer
deriving DecidableEq, Repr

/-- Embeds `StatusHistoryEntry` (`src/backend/src/models/status_history.py`);
`Dt` stands for Python `datetime`. -/
structure StatusHistoryEntry (Dt : Type) where
  status : MachineStatus
  timestamp : Dt
  user : String
deriving DecidableEq, Repr

/-- Embeds `StatusHistoryEntryDict` (`status_history.py`): the serialized form,
with the timestamp rendered by `datetime.isoformat`. -/
structure StatusHistoryEntryDict where
  status : String
  timestamp : String
  user : String
deriving DecidableEq, Repr

/-- Embeds `StatusHistoryEntry.to_dict`; `iso` is `datetime.isoformat`. -/
def StatusHistoryEntry.to_dict {Dt : Type} (iso : Dt → String)
    (e : StatusHistoryEntry Dt) : StatusHistoryEntryDict :=
  ⟨e.status.value, iso e.timestamp, e.user⟩

/-- Embeds `StatusHistoryEntry.from_dict`; `fromiso` is `datetime.fromisoformat`
(`none` when it would raise `ValueError`). -/
def StatusHistoryEntry.from_dict {Dt : Type} (fromiso : String → Option Dt)
    (d : StatusHistoryEntryDict) : Except String (StatusHistoryEntry Dt) := do
  let s ← match MachineStatus.fromValue d.status with
    | some s => Except.ok s
    | none => Except.error (d.status ++ " is not a valid MachineStatus")
  let t ← match fromiso d.timestamp with
    | some t => Except.ok t
    | none => Except.error ("Invalid isoformat string: " ++ d.timestamp)
  return ⟨s, t, d.user⟩

/-- Embeds `TelegramMessage` (`src/backend/src/models/telegram_message.py`). -/
structure TelegramMessage where
  message : String
  message_url : Option String
deriving DecidableEq, Repr

/-- Embeds `TelegramMessageDict` (`telegram_message.py`). -/
structure TelegramMessageDict where
  message : String
  message_url : Option String
deriving DecidableEq, Repr

/-- Embeds `TelegramMessage.to_dict`. -/
def TelegramMessage.to_dict (t : TelegramMessage) : TelegramMessageDict :=
  ⟨t.message, t.message_url⟩

/-- Embeds `TelegramMessage.from_dict` (`message` read directly,
`message_url` via `.get`, i.e. defaulting to `None`). -/
def TelegramMessage.from_dict (d : TelegramMessageDict) : TelegramMessage :=
  ⟨d.message, d.message_url⟩

/-- Embeds the `Machine` entity (`src/backend/src/models/machine.py`).
The field `remaining_time_seconds` is not set by `Machine.__init__`: in the
Python source it is an attribute added dynamically by the PATCH handler
(`resources/machine.py`, line 127); `none` models "attribute absent". -/
structure Machine (Dt : Type) where
  id : String
  block_number : Int
  status : MachineStatus
  status_history : List (StatusHistoryEntry Dt)
  estimated_finish_time : Option String
  telegram_message : Option TelegramMessage
  remaining_time_seconds : Option Int
deriving DecidableEq, Repr

/-- Embeds the class constant `Machine.MAX_RUN_TIME_SECONDS = 50 * 60`
(declared in `machine.py` and never referenced anywhere in the source). -/
def MAX_RUN_TIME_SECONDS : Int := 50 * 60

/-- Embeds `Machine.__init__`: validates only `block_number in {55, 57, 59}`
(raising `ValueError` otherwise), and applies `status_history or []`. The id
string is not inspected at construction time. -/
def Machine.init {Dt : Type} (id : String) (block_number : Int)
    (status : MachineStatus := .available)
    (status_history : Option (List (StatusHistoryEntry Dt)) := none)
    (estimated_finish_time : Option String := none)
    (telegram_message : Option TelegramMessage := none) :
    Except String (Machine Dt) :=
  if block_number = 55 ∨ block_number = 57 ∨ block_number = 59 then
    Except.ok ⟨id, block_number, status, status_history.getD [],
      estimated_finish_time, telegram_message, none⟩
  else
    Except.error ("Block number must be one of {55, 57, 59}, got "
      ++ toString block_number)

/-- Is the character one of the Python whitespace characters stripped by
`int(str)` (ASCII fragment). -/
def isPySpace (c : Char) : Bool :=
  c = ' ' || c = '\t' || c = '\n' || c = '\r' || c = '\x0b' || c = '\x0c'

/-- Digit run of a Python base-10 integer literal: digits with single
underscores allowed only between digits. Accumulates the value. -/
def pyDigitsAux (acc : Nat) : List Char → Option Nat
  | [] => some acc
  | '_' :: c :: rest =>
    if c.isDigit then pyDigitsAux (acc * 10 + (c.toNat - 48)) rest else none
  | c :: rest =>
    if c.isDigit then pyDigitsAux (acc * 10 + (c.toNat - 48)) rest else none

/-- Nonempty digit run (first character must be a digit, no leading
underscore), per Python's integer-literal grammar. -/
def pyDigits : List Char → Option Nat
  | [] => none
  | c :: rest =>
    if c.isDigit then pyDigitsAux (c.toNat - 48) rest else none

/-- Embeds Python `int(s)` for a string argument (base 10): strips surrounding
whitespace, accepts one optional sign directly attached to the digits, then a
digit run with underscore grouping; `none` when Python raises `ValueError`. -/
def pyInt (s : String) : Option Int :=
  let l := ((s.data.dropWhile isPySpace).reverse.dropWhile isPySpace).reverse
  match l with
  | '+' :: rest => (pyDigits rest).map Int.ofNat
  | '-' :: rest => (pyDigits rest).map (fun n => -(Int.ofNat n))
  | _ => (pyDigits l).map Int.ofNat

/-- Is the character a machine-type marker, i.e. `char in ('W', 'D')` from the
loops in `Machine.type` and `Machine.number`. -/
def isMarker (c : Char) : Bool :=
  c == 'W' || c == 'D'

/-- Loop body of the `Machine.type` property (`machine.py`): scan for the
first `'W'`/`'D'`; `id` is carried for the error message. -/
def machineTypeAux (id : String) : List Char → Except String MachineType
  | [] => Except.error ("Invalid machine ID format: " ++ id)
  | c :: rest =>
    if c = 'W' ∨ c = 'D' then
      (if c = 'W' then Except.ok MachineType.washer
       else Except.ok MachineType.dryer)
    else machineTypeAux id rest

/-- Embeds the `Machine.type` property: the type derived from the id string. -/
def machineType (id : String) : Except String MachineType :=
  machineTypeAux id id.data

/-- Loop body of the `Machine.number` property (`machine.py`): at the first
`'W'`/`'D'`, the remaining suffix is passed to Python `int()`; an inner
`ValueError` from `int()` propagates with Python's message. -/
def machineNumberAux (id : String) : List Char → Except String Int
  | [] => Except.error ("Invalid machine ID format: " ++ id)
  | c :: rest =>
    if c = 'W' ∨ c = 'D' then
      (match pyInt (String.mk rest) with
       | some n => Except.ok n
       | none => Except.error ("invalid literal for int() with base 10: "
           ++ String.mk rest))
    else machineNumberAux id rest

/-- Embeds the `Machine.number` property: the sequence number derived from the
id string. -/
def machineNumber (id : String) : Except String Int :=
  machineNumberAux id id.data

/-- Embeds `Machine.update_status`: unconditionally sets the status and
appends one history entry; `now` stands for `datetime.now()`. -/
def Machine.update_status {Dt : Type} (m : Machine Dt)
    (new_status : MachineStatus) (user : String) (now : Dt) : Machine Dt :=
  { m with
    status := new_status
    status_history := m.status_history ++ [⟨new_status, now, user⟩] }

/-- Embeds `str.replace('Z', '+00:00')` from the `estimated_finish_time`
setter: every `'Z'` is replaced by `"+00:00"`. -/
def pyReplaceZ (s : String) : String :=
  String.mk ((s.data.map
    (fun c => if c = 'Z' then "+00:00".data else [c])).flatten)

/-- Embeds the `estimated_finish_time` setter (`machine.py`): for a string
value, `datetime.fromisoformat(value.replace('Z', '+00:00'))` must succeed —
`fromisoOk` is that success test — else `ValueError` is raised and the machine
is left untouched; on success the original string (not the replaced one) is
stored; `None` is stored directly. No history entry is appended. -/
def Machine.set_estimated_finish_time {Dt : Type} (fromisoOk : String → Bool)
    (m : Machine Dt) (value : Option String) : Except String (Machine Dt) :=
  match value with
  | some s =>
    if fromisoOk (pyReplaceZ s) then
      Except.ok { m with estimated_finish_time := some s }
    else
      Except.error ("Invalid ISO 8601 timestamp: " ++ s)
  | none => Except.ok { m with estimated_finish_time := none }

/-- Embeds `MachineDict` (`machine.py`): the serialized form of a machine.
`remaining_time_seconds` does not appear in it in the source. -/
structure MachineDict where
  id : String
  block_number : Int
  status : String
  status_history : List StatusHistoryEntryDict
  estimated_finish_time : Option String
  telegram_message : Option TelegramMessageDict
deriving DecidableEq, Repr

/-- Embeds `Machine.to_dict`; `iso` is `datetime.isoformat`. -/
def Machine.to_dict {Dt : Type} (iso : Dt → String) (m : Machine Dt) :
    MachineDict :=
  ⟨m.id, m.block_number, m.status.value,
    m.status_history.map (StatusHistoryEntry.to_dict iso),
    m.estimated_finish_time,
    m.telegram_message.map TelegramMessage.to_dict⟩

/-- Embeds `Machine.from_dict`: re-parses the status tag and each history
entry (either may raise `ValueError`), then runs the constructor, which checks
the block number. -/
def Machine.from_dict {Dt : Type} (fromiso : String → Option Dt)
    (d : MachineDict) : Except String (Machine Dt) := do
  let s ← match MachineStatus.fromValue d.status with
    | some s => Except.ok s
    | none => Except.error (d.status ++ " is not a valid MachineStatus")
  let hist ← d.status_history.mapM (StatusHistoryEntry.from_dict fromiso)
  Machine.init d.id d.block_number s (some hist) d.estimated_finish_time
    (d.telegram_message.map TelegramMessage.from_dict)

/-- Python `dict` association: lookup by key (`dict.get`). -/
def dictGet {α : Type} : List (String × α) → String → Option α
  | [], _ => none
  | (k, v) :: rest, key => if k = key then some v else dictGet rest key

/-- Python `dict` association: `d[k] = v`. Replaces the value in place when
the key exists (keeping its insertion position), appends otherwise. -/
def dictSet {α : Type} : List (String × α) → String → α → List (String × α)
  | [], key, v => [(key, v)]
  | (k, w) :: rest, key, v =>
    if k = key then (key, v) :: rest else (k, w) :: dictSet rest key v

/-- Embeds `MachineStorage` (`src/backend/src/storage.py`): the dict
`self._machines`, keyed by machine id, in insertion order. -/
structure MachineStorage (Dt : Type) where
  machines : List (String × Machine Dt)
deriving DecidableEq, Repr

/-- The empty storage produced by `MachineStorage.__init__`. -/
def MachineStorage.empty {Dt : Type} : MachineStorage Dt := ⟨[]⟩

/-- Embeds `MachineStorage.get_all`: `list(self._machines.values())`. -/
def MachineStorage.get_all {Dt : Type} (st : MachineStorage Dt) :
    List (Machine Dt) :=
  st.machines.map Prod.snd

/-- Embeds `MachineStorage.get_by_id`: `self._machines.get(machine_id)`. -/
def MachineStorage.get_by_id {Dt : Type} (st : MachineStorage Dt)
    (machine_id : String) : Option (Machine Dt) :=
  dictGet st.machines machine_id

/-- Embeds `MachineStorage.create`: `self._machines[machine.id] = machine;
return machine`. Result is the new storage paired with the return value. -/
def MachineStorage.create {Dt : Type} (st : MachineStorage Dt)
    (machine : Machine Dt) : MachineStorage Dt × Machine Dt :=
  (⟨dictSet st.machines machine.id machine⟩, machine)

/-- Embeds `MachineStorage.update`: `self._machines[machine.id] = machine;
return machine`. -/
def MachineStorage.update {Dt : Type} (st : MachineStorage Dt)
    (machine : Machine Dt) : MachineStorage Dt × Machine Dt :=
  (⟨dictSet st.machines machine.id machine⟩, machine)

/-- Embeds `MachineStorage.delete`: removes the key when present, returning
whether something was removed. -/
def MachineStorage.delete {Dt : Type} (st : MachineStorage Dt)
    (machine_id : String) : MachineStorage Dt × Bool :=
  match dictGet st.machines machine_id with
  | some _ => (⟨st.machines.filter (fun p => p.1 ≠ machine_id)⟩, true)
  | none => (st, false)

/-- Embeds `MachineStorage.get_by_status`: linear filter on `m.status`. -/
def MachineStorage.get_by_status {Dt : Type} (st : MachineStorage Dt)
    (status : MachineStatus) : List (Machine Dt) :=
  (st.machines.map Prod.snd).filter (fun m => m.status = status)

/-- Embeds Python `str.lower()` (ASCII fragment: `Char.toLower` lowercases
exactly the letters `A`–`Z`). -/
def pyLower (s : String) : String :=
  String.mk (s.data.map Char.toLower)

/-- Embeds `MachineStorage.get_by_type`: picks `'W'` when
`machine_type.lower() == 'washer'` and `'D'` for every other argument, then
filters by substring containment `type_char in m.id`. Total: no error outcome
for unrecognized type names. -/
def MachineStorage.get_by_type {Dt : Type} (st : MachineStorage Dt)
    (machine_type : String) : List (Machine Dt) :=
  let type_char := if pyLower machine_type = "washer" then 'W' else 'D'
  (st.machines.map Prod.snd).filter (fun m => m.id.data.contains type_char)

/-- Embeds `MachineStorage.get_by_block`: linear filter on `block_number`. -/
def MachineStorage.get_by_block {Dt : Type} (st : MachineStorage Dt)
    (block_number : Int) : List (Machine Dt) :=
  (st.machines.map Prod.snd).filter (fun m => m.block_number = block_number)

/-- Embeds `MachineStorage.exists`: `machine_id in self._machines`. -/
def MachineStorage.hasId {Dt : Type} (st : MachineStorage Dt)
    (machine_id : String) : Bool :=
  (dictGet st.machines machine_id).isSome

/-- One inner loop of `initialize_default_machines`: for each id in order,
construct `Machine(id, block, AVAILABLE)` (propagating any `ValueError`),
store it under its id and collect it. -/
def createMany {Dt : Type} (st : MachineStorage Dt) (block : Int) :
    List String → Except String (MachineStorage Dt × List (Machine Dt))
  | [] => Except.ok (st, [])
  | id :: rest => do
    let m ← (Machine.init id block .available none none none :
      Except String (Machine Dt))
    let (st1, ms) ← createMany ⟨dictSet st.machines id m⟩ block rest
    return (st1, m :: ms)

/-- The id sequence `f'{block}{letter}{i}'` for `i in range(1, count + 1)`. -/
def blockIds (block : Int) (letter : Char) (count : Nat) : List String :=
  (List.range count).map
    (fun i => toString block ++ String.mk [letter] ++ toString (i + 1))

/-- Embeds `MachineStorage.initialize_default_machines` (`storage.py`): for
each block 55, 57, 59, creates the washers `<block>W1..` then the dryers
`<block>D1..`, registers each under its id, and returns the created machines
in creation order. -/
def MachineStorage.initialize_default_machines {Dt : Type}
    (st : MachineStorage Dt) (washers_55 : Nat := 11) (washers_57 : Nat := 11)
    (washers_59 : Nat := 11) (dryers_55 : Nat := 6) (dryers_57 : Nat := 6)
    (dryers_59 : Nat := 6) :
    Except String (MachineStorage Dt × List (Machine Dt)) := do
  let (st1, w55) ← createMany st 55 (blockIds 55 'W' washers_55)
  let (st2, d55) ← createMany st1 55 (blockIds 55 'D' dryers_55)
  let (st3, w57) ← createMany st2 57 (blockIds 57 'W' washers_57)
  let (st4, d57) ← createMany st3 57 (blockIds 57 'D' dryers_57)
  let (st5, w59) ← createMany st4 59 (blockIds 59 'W' washers_59)
  let (st6, d59) ← createMany st5 59 (blockIds 59 'D' dryers_59)
  return (st6, w55 ++ d55 ++ w57 ++ d57 ++ w59 ++ d59)

/-- Embeds `MachineTimeResource.patch` (`src/backend/src/resources/machine.py`,
lines 114-131) on the path where the request body holds the integer `v`:
missing machine gives a 404 response; otherwise
`machine.remaining_time_seconds = int(v)` — a plain attribute assignment, the
`Machine` class defines no validating property for it, and `int(v) = v` for an
integer — then `storage.update(machine)` and a 200 response with the machine.
The result is the new storage and either `(machine, 200)` or an error body
with its HTTP code. -/
def MachineTimeResource.patch {Dt : Type} (st : MachineStorage Dt)
    (machine_id : String) (v : Int) :
    MachineStorage Dt × Except (String × Nat) (Machine Dt × Nat) :=
  match dictGet st.machines machine_id with
  | none => (st, Except.error ("Machine " ++ machine_id ++ " not found", 404))
  | some machine =>
    let machine1 := { machine with remaining_time_seconds := some v }
    ((MachineStorage.update st machine1).1, Except.ok (machine1, 200))

/-- Follows the spec's words (comparison definition, not from the code): the
block number derivable from a machine id — the digits before the first
`'W'`/`'D'` marker, read as an integer. -/
def specDerivedBlock (id : String) : Option Int :=
  pyInt (String.mk (id.data.takeWhile (fun c => !(isMarker c))))

/-- The suffix of the id after its first `'W'`/`'D'` marker (empty when there
is no marker). -/
def markerSuffix (id : String) : List Char :=
  (id.data.dropWhile (fun c => !(isMarker c))).tail

/-- Example machine whose id contains both marker letters; its first marker is
`'D'`, so its identifier-derived type is dryer. -/
def mDW : Machine Unit :=
  ⟨"55DW1", 55, .available, [], none, none, none⟩

/-- Example dryer machine for exercising `get_by_type`. -/
def mD1 : Machine Unit :=
  ⟨"55D1", 55, .available, [], none, none, none⟩

/-- Example storage holding the single dryer `mD1`. -/
def stD1 : MachineStorage Unit :=
  ⟨[("55D1", mD1)]⟩

/-- Example washer machine for the remaining-time PATCH. -/
def m55W1 : Machine Unit :=
  ⟨"55W1", 55, .available, [], none, none, none⟩

/-- Example storage holding the single washer `m55W1`. -/
def stPatch : MachineStorage Unit :=
  ⟨[("55W1", m55W1)]⟩

/-- Example machine with empty status history. -/
def mW4 : Machine Unit :=
  ⟨"57W4", 57, .available, [], none, none, none⟩

/-- Example machine with nonempty history, finish time and Telegram note, for
the serialization round trip. -/
def mRT : Machine Unit :=
  ⟨"57W4", 57, .inUse, [⟨.inUse, (), "alice"⟩],
    some "2024-01-01T00:00:00Z", some ⟨"msg", some "url"⟩, none⟩

/-- Example machine carrying an estimated finish time. -/
def mC8 : Machine Unit :=
  ⟨"55W1", 55, .available, [], some "2024-01-01T00:00:00", none, none⟩

/-- Folds a sequence of `update_status` calls (status, user, timestamp) over a
machine, left to right. -/
def applyUpdates {Dt : Type} (m : Machine Dt)
    (calls : List (MachineStatus × String × Dt)) : Machine Dt :=
  calls.foldl (fun acc c => acc.update_status c.1 c.2.1 c.2.2) m

lemma dictGet_dictSet_self {α : Type} (l : List (String × α)) (k : String)
    (v : α) : dictGet (dictSet l k v) k = some v := by
  induction l with
  | nil => simp [dictSet, dictGet]
  | cons p rest ih =>
    obtain ⟨k1, v1⟩ := p
    by_cases h : k1 = k
    · simp [dictSet, h, dictGet]
    · simp [dictSet, h, dictGet, ih]

/-- Claim C9: for every registry state and machine, `create` and `update`
produce the same storage and return value (the keyed upsert), and after
`create` the machine is stored under its id — an existing machine with that id
is silently overwritten, with no error outcome. -/
theorem c9_create_update_same_upsert {Dt : Type} (st : MachineStorage Dt)
    (m : Machine Dt) :
    st.create m = st.update m
    ∧ (st.create m).2 = m
    ∧ (st.create m).1.get_by_id m.id = some m := by
  refine ⟨rfl, rfl, ?_⟩
  simpa [MachineStorage.create, MachineStorage.get_by_id] using
    dictGet_dictSet_self st.machines m.id m

/-- Claim C1 (amended): construction succeeds, returning exactly the machine
with the supplied fields, iff the supplied block number is one of 55, 57, 59;
the id is never cross-checked, so the stored block number is whatever the
caller supplied. -/
theorem c1_init_validates_membership_only {Dt : Type} (id : String)
    (block_number : Int) (status : MachineStatus)
    (status_history : Option (List (StatusHistoryEntry Dt)))
    (estimated_finish_time : Option String)
    (telegram_message : Option TelegramMessage) :
    (Machine.init id block_number status status_history estimated_finish_time
        telegram_message
      = Except.ok ⟨id, block_number, status, status_history.getD [],
          estimated_finish_time, telegram_message, none⟩
      ↔ (block_number = 55 ∨ block_number = 57 ∨ block_number = 59))
    ∧ ((∃ m : Machine Dt,
        Machine.init id block_number status status_history
          estimated_finish_time telegram_message = Except.ok m)
      ↔ (block_number = 55 ∨ block_number = 57 ∨ block_number = 59)) := by
  unfold Machine.init
  split <;> simp_all

/-- Claim C1 counterexample: `Machine('55W1', 57)` succeeds and yields a
machine whose `block_number` 57 differs from the block 55 derivable from its
id, so construction does not fail on a block/id mismatch. -/
theorem c1_counterexample :
    (Machine.init "55W1" 57 .available none none none :
        Except String (Machine Unit))
      = Except.ok ⟨"55W1", 57, .available, [], none, none, none⟩
    ∧ specDerivedBlock "55W1" = some 55
    ∧ (57 : Int) ≠ 55 := by
  refine ⟨rfl, ?_, by decide⟩
  decide

/-- Claim C3 (amended): for the two canonical type names, `get_by_type`
returns exactly the registered machines whose id contains the corresponding
marker character (`'W'` for washers, `'D'` for dryers) anywhere as a
substring; this agrees with the identifier-derived type only for ids
containing a single marker letter. -/
theorem c3_get_by_type_is_substring_filter {Dt : Type}
    (st : MachineStorage Dt) :
    st.get_by_type "washer"
        = st.get_all.filter (fun m => m.id.data.contains 'W')
    ∧ st.get_by_type "dryer"
        = st.get_all.filter (fun m => m.id.data.contains 'D') := by
  constructor <;> rfl

/-- Claim C3 counterexample: the machine `55DW1` (constructible, since its
block is valid) has identifier-derived type dryer, yet once registered it is
returned by `get_by_type('washer')` because its id contains a `'W'`. -/
theorem c3_counterexample :
    Machine.init "55DW1" 55 .available none none none = Except.ok mDW
    ∧ ((MachineStorage.empty.create mDW).1.get_by_type "washer" = [mDW])
    ∧ machineType "55DW1" = Except.ok MachineType.dryer
    ∧ MachineType.dryer ≠ MachineType.washer := by
  refine ⟨rfl, ?_, rfl, by decide⟩
  decide

/-- Claim C10: for every argument string whose Python-lowercased form is not
`"washer"`, `get_by_type` filters the registered machines by containment of
the character `'D'` in the id; the function is total, so there is no error
outcome for unrecognized type names. -/
theorem c10_get_by_type_nonwasher {Dt : Type} (st : MachineStorage Dt)
    (t : String) (h : pyLower t ≠ "washer") :
    st.get_by_type t = st.get_all.filter (fun m => m.id.data.contains 'D') := by
  unfold MachineStorage.get_by_type MachineStorage.get_all
  simp [h]

/-- Claim C10 witness: `get_by_type` at the concrete argument `"dryer"` on a
one-machine registry. -/
theorem c10_witness :
    stD1.get_by_type "dryer"
      = stD1.get_all.filter (fun m => m.id.data.contains 'D') :=
  c10_get_by_type_nonwasher stD1 "dryer" (by decide)

/-- Claim C2: the remaining-time PATCH at the out-of-range value 3001 on a
present machine succeeds with HTTP 200 and stores 3001, exceeding
`MAX_RUN_TIME_SECONDS`: no range validation exists on this path (the constant
is never referenced), so the spec's 0..3000 bound is not enforced. -/
theorem c2_patch_accepts_out_of_range :
    MachineTimeResource.patch stPatch "55W1" 3001
      = (⟨[("55W1", { m55W1 with remaining_time_seconds := some 3001 })]⟩,
         Except.ok ({ m55W1 with remaining_time_seconds := some 3001 }, 200))
    ∧ MAX_RUN_TIME_SECONDS < 3001 := by
  refine ⟨?_, by decide⟩
  rfl

/-- The 51 default fleet identifiers with their blocks, in creation order:
for each block 55, 57, 59, washers 1..11 then dryers 1..6. -/
def defaultFleetIds : List (String × Int) :=
  [("55W1", 55), ("55W2", 55), ("55W3", 55), ("55W4", 55),
   ("55W5", 55), ("55W6", 55), ("55W7", 55), ("55W8", 55),
   ("55W9", 55), ("55W10", 55), ("55W11", 55), ("55D1", 55),
   ("55D2", 55), ("55D3", 55), ("55D4", 55), ("55D5", 55),
   ("55D6", 55), ("57W1", 57), ("57W2", 57), ("57W3", 57),
   ("57W4", 57), ("57W5", 57), ("57W6", 57), ("57W7", 57),
   ("57W8", 57), ("57W9", 57), ("57W10", 57), ("57W11", 57),
   ("57D1", 57), ("57D2", 57), ("57D3", 57), ("57D4", 57),
   ("57D5", 57), ("57D6", 57), ("59W1", 59), ("59W2", 59),
   ("59W3", 59), ("59W4", 59), ("59W5", 59), ("59W6", 59),
   ("59W7", 59), ("59W8", 59), ("59W9", 59), ("59W10", 59),
   ("59W11", 59), ("59D1", 59), ("59D2", 59), ("59D3", 59),
   ("59D4", 59), ("59D5", 59), ("59D6", 59)]

/-- The expected default fleet: each identifier paired with a fresh AVAILABLE
machine with empty history and no time estimate. -/
def defaultFleet : List (Machine Unit) :=
  defaultFleetIds.map (fun p => ⟨p.1, p.2, .available, [], none, none, none⟩)

/-- Claim C6: bulk initialization with the default counts (11 washers, 6
dryers per block) succeeds, registers exactly the 51 machines
`55W1..55W11, 55D1..55D6, 57W1.., 59D1..59D6` under their ids, returns
exactly that list, and every created machine is AVAILABLE with empty
history. -/
theorem c6_initialize_default_fleet :
    MachineStorage.initialize_default_machines
        (MachineStorage.empty : MachineStorage Unit) 11 11 11 6 6 6
      = Except.ok (⟨defaultFleet.map (fun m => (m.id, m))⟩, defaultFleet)
    ∧ defaultFleet.length = 51
    ∧ defaultFleet.all
        (fun m => m.status == .available && m.status_history == []) = true := by
  refine ⟨?_, by decide, by decide⟩
  rfl

lemma applyUpdates_history {Dt : Type} (calls : List (MachineStatus × String × Dt))
    (m : Machine Dt) :
    (applyUpdates m calls).status_history
      = m.status_history
        ++ calls.map (fun c => (⟨c.1, c.2.2, c.2.1⟩ : StatusHistoryEntry Dt)) := by
  induction calls generalizing m with
  | nil => simp [applyUpdates]
  | cons c cs ih =>
    have step : applyUpdates m (c :: cs)
        = applyUpdates (m.update_status c.1 c.2.1 c.2.2) cs := rfl
    rw [step, ih]
    simp [Machine.update_status]

/-- Claim C4: starting from an empty history, N `update_status` calls leave
exactly N history entries, the last entry's status is the most recent call's
status, and every single call grows the history of any machine by exactly
one entry. -/
theorem c4_update_status_history {Dt : Type} (m : Machine Dt)
    (calls : List (MachineStatus × String × Dt))
    (h0 : m.status_history = []) :
    (applyUpdates m calls).status_history.length = calls.length
    ∧ ((applyUpdates m calls).status_history.getLast?).map
          StatusHistoryEntry.status
        = (calls.getLast?).map Prod.fst
    ∧ ∀ (m1 : Machine Dt) (s : MachineStatus) (u : String) (t : Dt),
        (m1.update_status s u t).status_history.length
          = m1.status_history.length + 1 := by
  refine ⟨?_, ?_, ?_⟩
  · rw [applyUpdates_history, h0]
    simp
  · rw [applyUpdates_history, h0]
    simp only [List.nil_append, List.getLast?_map]
    cases calls.getLast? <;> rfl
  · intro m1 s u t
    simp [Machine.update_status]

/-- Claim C4 witness: one concrete call on a machine with empty history. -/
theorem c4_witness :
    (applyUpdates mW4 [(.inUse, "alice", ())]).status_history.length = 1
    ∧ ((applyUpdates mW4 [(.inUse, "alice", ())]).status_history.getLast?).map
          StatusHistoryEntry.status
        = some MachineStatus.inUse := by
  have h := c4_update_status_history mW4 [(.inUse, "alice", ())] rfl
  exact ⟨h.1, h.2.1⟩

/-- Claim C8: the `estimated_finish_time` setter fails with a validation
error exactly when the given string, after `'Z'` replacement, is rejected by
`datetime.fromisoformat` — in which case the machine (its finish time and its
history) is untouched, the exception propagating before any assignment — and
on a passing string or `None` it stores the value unchanged and appends no
status-history entry. -/
theorem c8_estimated_finish_setter {Dt : Type} (fromisoOk : String → Bool)
    (m : Machine Dt) :
    (∀ s, fromisoOk (pyReplaceZ s) = false →
        Machine.set_estimated_finish_time fromisoOk m (some s)
          = Except.error ("Invalid ISO 8601 timestamp: " ++ s))
    ∧ (∀ s, fromisoOk (pyReplaceZ s) = true →
        Machine.set_estimated_finish_time fromisoOk m (some s)
          = Except.ok { m with estimated_finish_time := some s })
    ∧ Machine.set_estimated_finish_time fromisoOk m none
        = Except.ok { m with estimated_finish_time := none }
    ∧ (∀ s m1, Machine.set_estimated_finish_time fromisoOk m (some s)
          = Except.ok m1 →
        m1.status_history = m.status_history
        ∧ m1.estimated_finish_time = some s
        ∧ m1.id = m.id ∧ m1.block_number = m.block_number
        ∧ m1.status = m.status ∧ m1.telegram_message = m.telegram_message) := by
  refine ⟨?_, ?_, rfl, ?_⟩
  · intro s hs
    simp [Machine.set_estimated_finish_time, hs]
  · intro s hs
    simp [Machine.set_estimated_finish_time, hs]
  · intro s m1 h
    by_cases hs : fromisoOk (pyReplaceZ s) = true
    · have h3 : Machine.set_estimated_finish_time fromisoOk m (some s)
          = Except.ok { m with estimated_finish_time := some s } := by
        simp [Machine.set_estimated_finish_time, hs]
      rw [h3] at h
      have hm := Except.ok.inj h
      subst hm
      exact ⟨rfl, rfl, rfl, rfl, rfl, rfl⟩
    · have h3 : Machine.set_estimated_finish_time fromisoOk m (some s)
          = Except.error ("Invalid ISO 8601 timestamp: " ++ s) := by
        simp [Machine.set_estimated_finish_time, hs]
      rw [h3] at h
      exact Except.noConfusion h

/-- Claim C8 witness: a rejected string on a concrete machine, and an
accepted string storing the value without touching the history. -/
theorem c8_witness :
    Machine.set_estimated_finish_time (fun _ => false) mC8 (some "bad")
      = Except.error ("Invalid ISO 8601 timestamp: " ++ "bad")
    ∧ Machine.set_estimated_finish_time (fun _ => true) mC8
          (some "2025-01-01T00:00:00Z")
        = Except.ok
            { mC8 with estimated_finish_time := some "2025-01-01T00:00:00Z" } :=
  ⟨(c8_estimated_finish_setter (fun _ => false) mC8).1 "bad" rfl,
   (c8_estimated_finish_setter (fun _ => true) mC8).2.1
     "2025-01-01T00:00:00Z" rfl⟩

lemma status_value_roundtrip (s : MachineStatus) :
    MachineStatus.fromValue s.value = some s := by
  cases s <;> rfl

lemma entry_roundtrip {Dt : Type} (iso : Dt → String)
    (fromiso : String → Option Dt) (h : ∀ d, fromiso (iso d) = some d)
    (e : StatusHistoryEntry Dt) :
    StatusHistoryEntry.from_dict fromiso (StatusHistoryEntry.to_dict iso e)
      = Except.ok e := by
  unfold StatusHistoryEntry.from_dict StatusHistoryEntry.to_dict
  rw [status_value_roundtrip, h]
  rfl

lemma mapM_entries_roundtrip {Dt : Type} (iso : Dt → String)
    (fromiso : String → Option Dt) (h : ∀ d, fromiso (iso d) = some d)
    (l : List (StatusHistoryEntry Dt)) :
    (l.map (StatusHistoryEntry.to_dict iso)).mapM
        (StatusHistoryEntry.from_dict fromiso)
      = Except.ok l := by
  induction l with
  | nil => rfl
  | cons e es ih =>
    rw [List.map_cons, List.mapM_cons, entry_roundtrip iso fromiso h, ih]
    rfl

/-- Claim C5: for every machine with a valid block number,
`from_dict (to_dict m)` succeeds and reproduces the id, block number, status,
the full status history in order, the estimated finish time and the Telegram
note, provided `datetime.fromisoformat` inverts `datetime.isoformat`
(`hround`, a property of the Python library the code delegates to). The
`remaining_time_seconds` attribute is not part of the serialized form. -/
theorem c5_serialization_roundtrip {Dt : Type} (iso : Dt → String)
    (fromiso : String → Option Dt) (hround : ∀ d, fromiso (iso d) = some d)
    (m : Machine Dt)
    (hblock : m.block_number = 55 ∨ m.block_number = 57
      ∨ m.block_number = 59) :
    Machine.from_dict fromiso (Machine.to_dict iso m)
      = Except.ok { m with remaining_time_seconds := none } := by
  unfold Machine.from_dict Machine.to_dict
  rw [status_value_roundtrip, mapM_entries_roundtrip iso fromiso hround]
  show Machine.init m.id m.block_number m.status (some m.status_history)
      m.estimated_finish_time
      ((m.telegram_message.map TelegramMessage.to_dict).map
        TelegramMessage.from_dict)
    = Except.ok { m with remaining_time_seconds := none }
  have htg : (m.telegram_message.map TelegramMessage.to_dict).map
      TelegramMessage.from_dict = m.telegram_message := by
    cases m.telegram_message <;> rfl
  rw [htg]
  unfold Machine.init
  rw [if_pos hblock]
  rfl

/-- Claim C5 witness: the round trip on a concrete machine with nonempty
history, finish time and Telegram note, with timestamps over `Unit`. -/
theorem c5_witness :
    Machine.from_dict (fun _ => some ())
        (Machine.to_dict (fun _ => "1970-01-01T00:00:00") mRT)
      = Except.ok { mRT with remaining_time_seconds := none } :=
  c5_serialization_roundtrip (fun _ => "1970-01-01T00:00:00")
    (fun _ => some ()) (fun _ => rfl) mRT (Or.inr (Or.inl rfl))

lemma isMarker_iff (c : Char) : isMarker c = true ↔ (c = 'W' ∨ c = 'D') := by
  simp [isMarker]

lemma isMarker_false_of_not (c : Char) (h : ¬(c = 'W' ∨ c = 'D')) :
    isMarker c = false := by
  rcases hb : isMarker c
  · rfl
  · exact absurd ((isMarker_iff c).1 hb) h

lemma machineTypeAux_eq_washer (id : String) (l : List Char) :
    machineTypeAux id l = Except.ok MachineType.washer
      ↔ l.find? isMarker = some 'W' := by
  induction l with
  | nil => simp [machineTypeAux]
  | cons c rest ih =>
    by_cases h : c = 'W' ∨ c = 'D'
    · have hm : isMarker c = true := (isMarker_iff c).2 h
      rcases h with h | h
      · subst h
        simp [machineTypeAux, List.find?_cons, hm]
      · subst h
        simp [machineTypeAux, List.find?_cons, hm]
    · have hm : isMarker c = false := isMarker_false_of_not c h
      simp [machineTypeAux, h, List.find?_cons, hm, ih]

lemma machineTypeAux_eq_dryer (id : String) (l : List Char) :
    machineTypeAux id l = Except.ok MachineType.dryer
      ↔ l.find? isMarker = some 'D' := by
  induction l with
  | nil => simp [machineTypeAux]
  | cons c rest ih =>
    by_cases h : c = 'W' ∨ c = 'D'
    · have hm : isMarker c = true := (isMarker_iff c).2 h
      rcases h with h | h
      · subst h
        simp [machineTypeAux, List.find?_cons, hm]
      · subst h
        simp [machineTypeAux, List.find?_cons, hm]
    · have hm : isMarker c = false := isMarker_false_of_not c h
      simp [machineTypeAux, h, List.find?_cons, hm, ih]

lemma machineTypeAux_ok_iff (id : String) (l : List Char) :
    (∃ t, machineTypeAux id l = Except.ok t) ↔ l.any isMarker = true := by
  induction l with
  | nil => simp [machineTypeAux]
  | cons c rest ih =>
    by_cases h : c = 'W' ∨ c = 'D'
    · have hm : isMarker c = true := (isMarker_iff c).2 h
      rcases h with h | h
      · subst h
        simp [machineTypeAux, List.any_cons, hm]
      · subst h
        simp [machineTypeAux, List.any_cons, hm]
    · have hm : isMarker c = false := isMarker_false_of_not c h
      simp [machineTypeAux, h, hm, ih]

lemma machineNumberAux_ok_iff (id : String) (l : List Char) (n : Int) :
    machineNumberAux id l = Except.ok n
      ↔ (l.any isMarker = true
          ∧ pyInt (String.mk ((l.dropWhile (fun c => !(isMarker c))).tail))
              = some n) := by
  induction l with
  | nil => simp [machineNumberAux]
  | cons c rest ih =>
    by_cases h : c = 'W' ∨ c = 'D'
    · have hm : isMarker c = true := (isMarker_iff c).2 h
      cases hp : pyInt (String.mk rest) with
      | none => simp [machineNumberAux, h, hm, List.dropWhile_cons, hp]
      | some k => simp [machineNumberAux, h, hm, List.dropWhile_cons, hp]
    · have hm : isMarker c = false := isMarker_false_of_not c h
      simp [machineNumberAux, h, hm, List.dropWhile_cons, ih]

/-- Claim C7 (amended): the identifier parser derives the type from the first
`'W'`/`'D'` occurrence and succeeds exactly when a marker appears; the number
is the Python `int()` parse of the suffix after that first marker — which
accepts an optional sign, so the result can be negative — and it fails exactly
when no marker appears or that parse fails. -/
theorem c7_parser_characterization (id : String) :
    (machineType id = Except.ok MachineType.washer
      ↔ id.data.find? isMarker = some 'W')
    ∧ (machineType id = Except.ok MachineType.dryer
      ↔ id.data.find? isMarker = some 'D')
    ∧ ((∃ t, machineType id = Except.ok t) ↔ id.data.any isMarker = true)
    ∧ (∀ n : Int, machineNumber id = Except.ok n
      ↔ (id.data.any isMarker = true
          ∧ pyInt (String.mk (markerSuffix id)) = some n))
    ∧ ((∃ n, machineNumber id = Except.ok n)
      ↔ (id.data.any isMarker = true
          ∧ (pyInt (String.mk (markerSuffix id))).isSome = true)) := by
  refine ⟨machineTypeAux_eq_washer id id.data,
    machineTypeAux_eq_dryer id id.data,
    machineTypeAux_ok_iff id id.data,
    fun n => machineNumberAux_ok_iff id id.data n, ?_⟩
  constructor
  · rintro ⟨n, hn⟩
    have h2 := (machineNumberAux_ok_iff id id.data n).1 hn
    exact ⟨h2.1, by rw [markerSuffix] at *; rw [h2.2]; rfl⟩
  · rintro ⟨hany, hsome⟩
    rcases Option.isSome_iff_exists.1 hsome with ⟨n, hn⟩
    exact ⟨n, (machineNumberAux_ok_iff id id.data n).2
      ⟨hany, by rw [markerSuffix] at hn; exact hn⟩⟩

/-- Claim C7 counterexample: the id `55W-3` parses — the trailing segment
`-3` is a valid Python integer — and yields the negative number `-3`, so the
returned number is not always non-negative. -/
theorem c7_counterexample :
    machineNumber "55W-3" = Except.ok (-3)
    ∧ (-3 : Int) < 0
    ∧ machineType "55W-3" = Except.ok MachineType.washer := by
  exact ⟨rfl, by decide, rfl⟩
